import Mathlib

/-!
Shallow embedding of the DigitalOcean droplet reconciliation module
(`cloud/digital_ocean/digital_ocean_droplet.py`).

The remote provisioning API is modelled as an oracle `Env` whose answers may
depend on the (integer) clock.  Time advances only in `time.sleep`, which the
polling loop is the only caller of; every other operation is instantaneous.
Every API call the module issues is recorded, together with the clock value at
which it was issued, in a `Trace`.  Python exceptions that escape `core` are
caught in `main` and turned into a fatal failure report; the embedding models
them with `Except` values carried to a `CoreResult.failJson`.
-/

namespace DODroplet

/-- Remote droplet as the module sees it: the fields of the JSON object the
module actually reads (`id`, `name`, `status`).  Statuses are provider strings
compared against "active" and "off". -/
structure Droplet where
  id : Nat
  name : String
  status : String
deriving DecidableEq

/-- Response to `GET droplets/{id}`: a payload with a droplet object under the
key `droplet`, a payload whose `droplet` key holds null, or an error payload
with no `droplet` key at all (reading it raises a KeyError in the source). -/
inductive IdResp where
  | found (d : Droplet)
  | foundNull
  | errorPayload
deriving DecidableEq

/-- Creation payload: the dict built in `core` from the module parameters
before `rest.post("droplets", ...)`. -/
structure Payload where
  name : Option String
  size : Option String
  image : Option String
  region : Option String
  ssh_keys : Option (List Nat)
  private_networking : Bool
  backups : Bool
  user_data : Option String
  ipv6 : Bool
deriving DecidableEq

/-- Response to `POST droplets`: either a payload with the created droplet, or
a payload containing a `message` key (the error shape `core` tests for). -/
inductive CreateResp where
  | ok (d : Droplet)
  | errMessage
deriving DecidableEq

/-- Oracle for the remote API.  Answers may depend on the clock, which lets a
single environment describe a droplet whose status changes over time. -/
structure Env where
  fetchById : Int → Nat → IdResp
  listDroplets : Int → List Droplet
  createResp : Int → Payload → CreateResp

/-- One API call issued by the module. -/
inductive Call where
  | getById (i : Nat)
  | listAll
  | create
  | powerOn (i : Nat)
  | delete (i : Nat)
deriving DecidableEq

/-- Calls that mutate remote state (`POST droplets`, the power-on action,
`DELETE droplets/{id}`), as opposed to the read-only GETs. -/
def Call.isMutating : Call → Bool
  | .create => true
  | .powerOn _ => true
  | .delete _ => true
  | _ => false

/-- Calls that fetch a single droplet status (`GET droplets/{id}`). -/
def Call.isStatusFetch : Call → Bool
  | .getById _ => true
  | _ => false

/-- Record of the API calls made so far, each with the clock value at which it
was issued. -/
abbrev Trace := List (Int × Call)

/-- Python exceptions the embedded functions can raise: a KeyError from
reading the missing key `droplet` of an error payload, and a TypeError from
subscripting the non-dict value `get_droplet` returned. -/
inductive PyErr where
  | keyErrorDroplet
  | typeErrorNone
deriving DecidableEq

/-- Rendering of the exception as `main` reports it via `str(e)`. -/
def PyErr.msg : PyErr → String
  | .keyErrorDroplet => "KeyError: droplet"
  | .typeErrorNone => "TypeError: value is not subscriptable"

/-- Module parameters relevant to `core`, mirroring the argument spec. -/
structure Params where
  api_token : Option String
  state : String
  id : Option Nat
  name : Option String
  unique_name : Bool
  size_id : Option String
  image_id : Option String
  region_id : Option String
  ssh_key_ids : Option (List Nat)
  private_networking : Bool
  backups_enabled : Bool
  user_data : Option String
  ipv6 : Bool
  wait : Bool
  wait_timeout : Int
deriving DecidableEq

/-- Python truthiness of an optional numeric parameter: `None` and `0` are
falsy. -/
def truthyNat : Option Nat → Bool
  | none => false
  | some n => !(n == 0)

/-- Python truthiness of an optional string parameter: `None` and the empty
string are falsy. -/
def truthyStr : Option String → Bool
  | none => false
  | some s => !(s == "")

/-- Credential resolution in `core`:
`module.params[api_token] or os.environ[DO_API_TOKEN] or os.environ[DO_API_KEY]`
inside a `try: ... except KeyError`.  An `os.environ` lookup of an unset
variable raises KeyError with the variable name, so the chain only reaches
DO_API_KEY when DO_API_TOKEN is set (possibly to a falsy value).  On error the
result carries the name of the variable whose lookup raised. -/
def resolveApiToken (param tok key : Option String) : Except String String :=
  if truthyStr param then Except.ok (param.getD ("")) else
  match tok with
  | none => Except.error ("DO_API_TOKEN")
  | some t =>
    if !(t == "") then Except.ok t else
    match key with
    | none => Except.error ("DO_API_KEY")
    | some k => Except.ok k

/-- Translation of `get_droplet(inst, droplet_id=None, name=None)`.  With both
arguments falsy it returns False (here `none`); with a truthy id it fetches
that droplet and reads `json[droplet]` (KeyError on an error payload); with a
name only, it lists all droplets and returns the first whose name is exactly
equal, or False when none matches. -/
def get_droplet (env : Env) (c : Int) (droplet_id : Option Nat)
    (name : Option String) : Except PyErr (Option Droplet) × Trace :=
  if !truthyNat droplet_id && !truthyStr name then (Except.ok none, []) else
  if truthyNat droplet_id then
    match env.fetchById c (droplet_id.getD 0) with
    | .found d => (Except.ok (some d), [(c, Call.getById (droplet_id.getD 0))])
    | .foundNull => (Except.ok none, [(c, Call.getById (droplet_id.getD 0))])
    | .errorPayload =>
        (Except.error PyErr.keyErrorDroplet, [(c, Call.getById (droplet_id.getD 0))])
  else
    (Except.ok ((env.listDroplets c).find? (fun d => d.name == name.getD (""))),
     [(c, Call.listAll)])

/-- Translation of `is_powered_on`: re-fetch the droplet by id and test
`res[status] == active`.  Subscripting the falsy value returned for a null
droplet raises a TypeError; the KeyError of an error payload propagates. -/
def is_powered_on (env : Env) (c : Int) (i : Nat) : Except PyErr Bool × Trace :=
  match get_droplet env c (some i) none with
  | (Except.ok (some d), tr) => (Except.ok (d.status == ("active")), tr)
  | (Except.ok none, tr) => (Except.error PyErr.typeErrorNone, tr)
  | (Except.error e, tr) => (Except.error e, tr)

/-- Result of the polling `while` loop in `ensure_powered_on`. -/
inductive PollResult where
  | active
  | timedOut
  | fetchErr (e : PyErr)
deriving DecidableEq

/-- Translation of the polling loop body:
`while time.time() < end_time: time.sleep(min(20, end_time - time.time()));`
`if is_powered_on(...): return`.  The clock advances exactly by the slept
amount; the status fetch happens after the sleep, at the advanced clock. -/
def pollLoop (env : Env) (i : Nat) (endTime : Int) (c : Int) :
    PollResult × Int × Trace :=
  if h : c < endTime then
    match is_powered_on env (c + min 20 (endTime - c)) i with
    | (Except.ok true, tr) => (PollResult.active, c + min 20 (endTime - c), tr)
    | (Except.ok false, tr) =>
        let r := pollLoop env i endTime (c + min 20 (endTime - c))
        (r.1, r.2.1, tr ++ r.2.2)
    | (Except.error e, tr) => (PollResult.fetchErr e, c + min 20 (endTime - c), tr)
  else (PollResult.timedOut, c, [])
termination_by (endTime - c).toNat
decreasing_by omega

/-- Result of `ensure_powered_on`: a plain return, a raised TimeoutError with
its message, or a propagated fetch exception. -/
inductive EnsureResult where
  | returned
  | timeout (msg : String)
  | exn (e : PyErr)
deriving DecidableEq

/-- Message of the TimeoutError raised when the deadline passes, naming the
droplet id. -/
def timeoutMsg (i : Nat) : String :=
  "Timeout waiting for Droplet " ++ toString i ++ " to power on."

/-- Translation of `ensure_powered_on`: return if already active; issue the
power-on action only when the snapshot status is exactly "off"; then, when
`wait` is set, run the polling loop against the deadline `now + wait_timeout`
and raise TimeoutError if it passes without observing the active status. -/
def ensure_powered_on (env : Env) (droplet : Droplet) (wait : Bool)
    (wait_timeout : Int) (c : Int) : EnsureResult × Int × Trace :=
  match is_powered_on env c droplet.id with
  | (Except.error e, tr) => (EnsureResult.exn e, c, tr)
  | (Except.ok true, tr) => (EnsureResult.returned, c, tr)
  | (Except.ok false, tr) =>
    let tr2 := if droplet.status == ("off")
      then tr ++ [(c, Call.powerOn droplet.id)] else tr
    if wait then
      match pollLoop env droplet.id (c + wait_timeout) c with
      | (PollResult.active, cf, tr3) => (EnsureResult.returned, cf, tr2 ++ tr3)
      | (PollResult.timedOut, cf, tr3) =>
          (EnsureResult.timeout (timeoutMsg droplet.id), cf, tr2 ++ tr3)
      | (PollResult.fetchErr e, cf, tr3) => (EnsureResult.exn e, cf, tr2 ++ tr3)
    else (EnsureResult.returned, c, tr2)

/-- Locate step of `core`: first try the id lookup, then — only when the id
lookup produced a falsy value and `unique_name` is set — the name lookup. -/
def located (env : Env) (p : Params) (c : Int) :
    Except PyErr (Option Droplet) × Trace :=
  match get_droplet env c p.id none with
  | (Except.error e, tr) => (Except.error e, tr)
  | (Except.ok d1, tr) =>
    if d1.isNone && p.unique_name then
      match get_droplet env c none p.name with
      | (Except.ok d2, tr2) => (Except.ok d2, tr ++ tr2)
      | (Except.error e, tr2) => (Except.error e, tr ++ tr2)
    else (Except.ok d1, tr)

/-- Creation payload built in `core` from the module parameters. -/
def mkPayload (p : Params) : Payload :=
  ⟨p.name, p.size_id, p.image_id, p.region_id, p.ssh_key_ids,
   p.private_networking, p.backups_enabled, p.user_data, p.ipv6⟩

/-- Terminal behaviour of one invocation: `module.exit_json` with its fields,
`module.fail_json` with a message (directly or via the exception handler in
`main`), or the fall-through when the state string matches no branch. -/
inductive CoreResult where
  | exitJson (changed : Bool) (droplet : Option Droplet) (msg : Option String)
  | failJson (msg : String)
  | noExit
deriving DecidableEq

/-- Message of the exception raised by `module.fail_json(msg=droplet.json)` on
the creation-error path: `droplet` is the value False there, which has no
attribute `json`, so evaluating the argument raises an AttributeError that
propagates to `main`. -/
def attrErrorMsg : String := "AttributeError: bool object has no attribute json"

/-- Tail of the present/active branch of `core`, from the `is_powered_on`
check on: decide `changed`, run `ensure_powered_on` when changed, and exit
with the droplet snapshot.  Exceptions become failure reports via `main`. -/
def corePresent (env : Env) (p : Params) (t0 : Int) (d : Droplet) (tr : Trace) :
    CoreResult × Trace :=
  match is_powered_on env t0 d.id with
  | (Except.error e, trP) => (CoreResult.failJson e.msg, tr ++ trP)
  | (Except.ok true, trP) => (CoreResult.exitJson false (some d) none, tr ++ trP)
  | (Except.ok false, trP) =>
    match ensure_powered_on env d p.wait p.wait_timeout t0 with
    | (EnsureResult.returned, _, trE) =>
        (CoreResult.exitJson true (some d) none, tr ++ trP ++ trE)
    | (EnsureResult.timeout m, _, trE) => (CoreResult.failJson m, tr ++ trP ++ trE)
    | (EnsureResult.exn e, _, trE) => (CoreResult.failJson e.msg, tr ++ trP ++ trE)

/-- Translation of `core(module)`, with `doTok`/`doKey` the values of the
environment variables DO_API_TOKEN / DO_API_KEY and `t0` the starting clock.
Returns the terminal report together with the trace of API calls issued. -/
def core (env : Env) (p : Params) (doTok doKey : Option String) (t0 : Int) :
    CoreResult × Trace :=
  match resolveApiToken p.api_token doTok doKey with
  | Except.error v => (CoreResult.failJson ("Unable to load " ++ v), [])
  | Except.ok _ =>
    match located env p t0 with
    | (Except.error e, trL) => (CoreResult.failJson e.msg, trL)
    | (Except.ok dOpt, trL) =>
      if p.state == ("active") || p.state == ("present") then
        match dOpt with
        | none =>
          match env.createResp t0 (mkPayload p) with
          | CreateResp.errMessage =>
              (CoreResult.failJson attrErrorMsg, trL ++ [(t0, Call.create)])
          | CreateResp.ok dNew => corePresent env p t0 dNew (trL ++ [(t0, Call.create)])
        | some d => corePresent env p t0 d trL
      else if p.state == ("absent") || p.state == ("deleted") then
        match dOpt with
        | none => (CoreResult.exitJson false none (some ("Droplet not found.")), trL)
        | some d => (CoreResult.exitJson true none none, trL ++ [(t0, Call.delete d.id)])
      else (CoreResult.noExit, trL)

/-! Helper lemmas. -/

theorem is_powered_on_trace (env : Env) (c : Int) (i : Nat) :
    ∀ e ∈ (is_powered_on env c i).2, e = (c, Call.getById i) := by
  by_cases hi : i = 0 <;>
    rcases hF : env.fetchById c i <;>
      simp [is_powered_on, get_droplet, truthyNat, truthyStr, hi, hF]

theorem is_powered_on_found (env : Env) (c : Int) (i : Nat) (d : Droplet)
    (hi : i ≠ 0) (hf : env.fetchById c i = IdResp.found d) :
    is_powered_on env c i =
      (Except.ok (d.status == ("active")), [(c, Call.getById i)]) := by
  simp [is_powered_on, get_droplet, truthyNat, truthyStr, hi, hf]

theorem get_droplet_not_mutating (env : Env) (c : Int) (oid : Option Nat)
    (onm : Option String) :
    ∀ e ∈ (get_droplet env c oid onm).2, e.2.isMutating = false := by
  unfold get_droplet
  split
  · simp
  · split
    · rcases hF : env.fetchById c (oid.getD 0) <;> simp [hF, Call.isMutating]
    · simp [Call.isMutating]

theorem located_not_mutating (env : Env) (p : Params) (c : Int) :
    ∀ e ∈ (located env p c).2, e.2.isMutating = false := by
  unfold located
  rcases h1 : get_droplet env c p.id none with ⟨r1, tr1⟩
  have htr1 := get_droplet_not_mutating env c p.id none
  rw [h1] at htr1
  rcases r1 with e1 | d1
  · simpa using htr1
  · simp only []
    split
    · rcases h2 : get_droplet env c none p.name with ⟨r2, tr2⟩
      have htr2 := get_droplet_not_mutating env c none p.name
      rw [h2] at htr2
      rcases r2 with e2 | d2 <;>
        · simp_all
          rintro a b (hL | hR)
          · exact htr1 a b hL
          · exact htr2 a b hR
    · simpa using htr1

theorem located_not_create (env : Env) (p : Params) (c : Int) :
    ∀ e ∈ (located env p c).2, e.2 ≠ Call.create := by
  intro e he hcr
  have := located_not_mutating env p c e he
  rw [hcr] at this
  simp [Call.isMutating] at this

theorem pollLoop_trace_spec (env : Env) (i : Nat) (endT : Int) :
    ∀ c, ∀ e ∈ (pollLoop env i endT c).2.2,
      e.2 = Call.getById i ∧ c < endT ∧ c + min 20 (endT - c) ≤ e.1 ∧
        e.1 ≤ endT := by
  have key : ∀ n : Nat, ∀ c, (endT - c).toNat ≤ n →
      ∀ e ∈ (pollLoop env i endT c).2.2,
        e.2 = Call.getById i ∧ c < endT ∧ c + min 20 (endT - c) ≤ e.1 ∧
          e.1 ≤ endT := by
    intro n
    induction n with
    | zero =>
      intro c hc e he
      rw [pollLoop, dif_neg (by omega)] at he
      simp at he
    | succ n ih =>
      intro c hc e he
      by_cases hlt : c < endT
      · rw [pollLoop, dif_pos hlt] at he
        have hmem := is_powered_on_trace env (c + min 20 (endT - c)) i
        rcases hip : is_powered_on env (c + min 20 (endT - c)) i with ⟨r, tr⟩
        rw [hip] at he hmem
        rcases r with er | b
        · simp only [] at he
          have := hmem e he
          subst this
          refine ⟨rfl, hlt, by omega, by omega⟩
        · rcases b with _ | _
          · simp only [] at he
            rcases List.mem_append.mp he with hL | hR
            · have := hmem e hL
              subst this
              refine ⟨rfl, hlt, by omega, by omega⟩
            · have hrec := ih (c + min 20 (endT - c)) (by omega) e hR
              refine ⟨hrec.1, hlt, by omega, hrec.2.2.2⟩
          · simp only [] at he
            have := hmem e he
            subst this
            refine ⟨rfl, hlt, by omega, by omega⟩
      · rw [pollLoop, dif_neg hlt] at he
        simp at he
  intro c
  exact key (endT - c).toNat c le_rfl

theorem pollLoop_never_active (env : Env) (i : Nat) (endT : Int) (hi : i ≠ 0)
    (h : ∀ t, ∃ d, env.fetchById t i = IdResp.found d ∧ d.status ≠ ("active")) :
    ∀ c, (pollLoop env i endT c).1 = PollResult.timedOut ∧
      (pollLoop env i endT c).2.1 ≤ max c endT := by
  have key : ∀ n : Nat, ∀ c, (endT - c).toNat ≤ n →
      (pollLoop env i endT c).1 = PollResult.timedOut ∧
        (pollLoop env i endT c).2.1 ≤ max c endT := by
    intro n
    induction n with
    | zero =>
      intro c hc
      rw [pollLoop, dif_neg (by omega)]
      exact ⟨rfl, by simp⟩
    | succ n ih =>
      intro c hc
      by_cases hlt : c < endT
      · rw [pollLoop, dif_pos hlt]
        obtain ⟨d, hd, hds⟩ := h (c + min 20 (endT - c))
        rw [is_powered_on_found env _ i d hi hd]
        have hb : (d.status == ("active")) = false := by
          simpa using hds
        rw [hb]
        have hrec := ih (c + min 20 (endT - c)) (by omega)
        simp only []
        refine ⟨hrec.1, ?_⟩
        have := hrec.2
        omega
      · rw [pollLoop, dif_neg hlt]
        exact ⟨rfl, by simp⟩
  intro c
  exact key (endT - c).toNat c le_rfl

/-! Concrete environments and parameter sets used to instantiate the
theorems. -/

/-- Baseline parameter set: present state, wait enabled, default timeout. -/
def baseParams : Params :=
  { api_token := some ("tok"), state := ("present"), id := none, name := none,
    unique_name := false, size_id := some ("2gb"), image_id := some ("img"),
    region_id := some ("nyc1"), ssh_key_ids := none,
    private_networking := false, backups_enabled := false, user_data := none,
    ipv6 := false, wait := true, wait_timeout := 300 }

/-- Environment whose every by-id fetch is an error payload. -/
def envAllErr : Env :=
  { fetchById := fun _ _ => IdResp.errorPayload
    listDroplets := fun _ => []
    createResp := fun _ _ => CreateResp.errMessage }

/-! Claim theorems. -/

/-- C7: the credential chain `params[api_token] or environ[DO_API_TOKEN] or
environ[DO_API_KEY]` evaluates the DO_API_TOKEN lookup eagerly, so with the
parameter unset and DO_API_TOKEN unset the invocation fails (with the
KeyError-derived message, before any API call: the trace is empty) even though
DO_API_KEY is set and non-empty.  This contradicts the claim that either
environment variable alone suffices, and the module documentation saying both
variables can be used. -/
theorem c7_env_fallback_code_bug :
    resolveApiToken none none (some ("sk-abc")) = Except.error ("DO_API_TOKEN") ∧
    core envAllErr { baseParams with api_token := none, id := some 1 } none
        (some ("sk-abc")) 0 =
      (CoreResult.failJson ("Unable to load DO_API_TOKEN"), []) := by
  constructor <;> rfl

/-- C8: when an identifier is supplied (desired state present) and the
fetch-by-identifier call returns an error payload, the KeyError raised on
reading the missing `droplet` key propagates to a fatal failure report and no
create call is issued: the engine does not fall back to creation. -/
theorem c8_id_error_no_create (env : Env) (p : Params)
    (doTok doKey : Option String) (t0 : Int) (tok : String) (i : Nat)
    (htok : resolveApiToken p.api_token doTok doKey = Except.ok tok)
    (hid : p.id = some i) (hi : i ≠ 0)
    (hstate : p.state = ("present"))
    (herr : env.fetchById t0 i = IdResp.errorPayload) :
    (core env p doTok doKey t0).1 =
      CoreResult.failJson (PyErr.msg PyErr.keyErrorDroplet) ∧
    ∀ e ∈ (core env p doTok doKey t0).2, e.2 ≠ Call.create := by
  have hgd : get_droplet env t0 p.id none =
      (Except.error PyErr.keyErrorDroplet, [(t0, Call.getById i)]) := by
    simp [get_droplet, truthyNat, truthyStr, hid, hi, herr]
  have hL : located env p t0 =
      (Except.error PyErr.keyErrorDroplet, [(t0, Call.getById i)]) := by
    simp [located, hgd]
  simp [core, htok, hL]

/-- C8 witness: droplet id 99, state present, fetch-by-id yields the error
payload; the invocation fails with the propagated KeyError message and the
trace contains no create call. -/
theorem c8_witness :
    (core envAllErr { baseParams with id := some 99 } none none 0).1 =
      CoreResult.failJson (PyErr.msg PyErr.keyErrorDroplet) ∧
    ∀ e ∈ (core envAllErr { baseParams with id := some 99 } none none 0).2,
      e.2 ≠ Call.create :=
  c8_id_error_no_create envAllErr { baseParams with id := some 99 } none none 0
    ("tok") 99 (by rfl) (by rfl) (by decide) (by rfl) (by rfl)

/-- C2: reconciling desired state absent or deleted when the locator finds no
instance exits successfully with changed=false, no instance and the not-found
message in the outcome, and the invocation issues zero mutating calls. -/
theorem c2_absent_idempotent (env : Env) (p : Params)
    (doTok doKey : Option String) (t0 : Int) (tok : String)
    (htok : resolveApiToken p.api_token doTok doKey = Except.ok tok)
    (hstate : p.state = ("absent") ∨ p.state = ("deleted"))
    (hloc : (located env p t0).1 = Except.ok none) :
    (core env p doTok doKey t0).1 =
      CoreResult.exitJson false none (some ("Droplet not found.")) ∧
    ∀ e ∈ (core env p doTok doKey t0).2, e.2.isMutating = false := by
  have hL : located env p t0 = (Except.ok none, (located env p t0).2) :=
    Prod.ext hloc rfl
  have hmut := located_not_mutating env p t0
  rcases hstate with hs | hs <;>
  · rw [core, htok, hL]
    simp [hs]
    intro a b hab
    simpa using hmut (a, b) hab

/-- C2 witness: state absent, no identifier or name match; the outcome is the
unchanged not-found exit and the trace holds no mutating call. -/
theorem c2_witness :
    (core envAllErr { baseParams with state := ("absent"), name := some ("w") }
        none none 0).1 =
      CoreResult.exitJson false none (some ("Droplet not found.")) ∧
    ∀ e ∈ (core envAllErr
        { baseParams with state := ("absent"), name := some ("w") }
        none none 0).2, e.2.isMutating = false :=
  c2_absent_idempotent envAllErr
    { baseParams with state := ("absent"), name := some ("w") } none none 0
    ("tok") (by rfl) (Or.inl (by rfl)) (by rfl)

/-- C6: when the creation response contains the error field `message`, the
invocation terminates as a fatal failure (evaluating `droplet.json` for the
failure report raises an AttributeError that propagates to the top-level
handler), the creation is not retried, and no further mutating call is issued:
the mutating calls of the whole trace are exactly the single create. -/
theorem c6_create_error_fatal (env : Env) (p : Params)
    (doTok doKey : Option String) (t0 : Int) (tok : String)
    (htok : resolveApiToken p.api_token doTok doKey = Except.ok tok)
    (hstate : p.state = ("present") ∨ p.state = ("active"))
    (hloc : (located env p t0).1 = Except.ok none)
    (hcr : env.createResp t0 (mkPayload p) = CreateResp.errMessage) :
    (core env p doTok doKey t0).1 = CoreResult.failJson attrErrorMsg ∧
    (core env p doTok doKey t0).2.filter (fun e => e.2.isMutating) =
      [(t0, Call.create)] := by
  have hL : located env p t0 = (Except.ok none, (located env p t0).2) :=
    Prod.ext hloc rfl
  have hnil : (located env p t0).2.filter (fun e => e.2.isMutating) = [] :=
    List.filter_eq_nil_iff.mpr (fun a ha => by
      simp [located_not_mutating env p t0 a ha])
  have h1 : core env p doTok doKey t0 =
      (CoreResult.failJson attrErrorMsg,
       (located env p t0).2 ++ [(t0, Call.create)]) := by
    rcases hstate with hs | hs <;>
    · rw [core, htok, hL]
      simp [hs, hcr]
  rw [h1]
  refine ⟨rfl, ?_⟩
  rw [List.filter_append, hnil]
  rfl

/-- C6 witness: creation rejected by the provider; the run fails with the
propagated exception message and the only mutating call is the one create. -/
theorem c6_witness :
    (core envAllErr { baseParams with name := some ("w") } none none 0).1 =
      CoreResult.failJson attrErrorMsg ∧
    (core envAllErr { baseParams with name := some ("w") } none none
        0).2.filter (fun e => e.2.isMutating) = [(0, Call.create)] :=
  c6_create_error_fatal envAllErr { baseParams with name := some ("w") }
    none none 0 ("tok") (by rfl) (Or.inl (by rfl)) (by rfl) (by rfl)

/-- Droplet used by the C9 deletion counterexample. -/
def dWeb : Droplet := ⟨42, ("web-1"), ("active")⟩

/-- Environment hosting exactly droplet 42. -/
def envOne42 : Env :=
  { fetchById := fun _ j => if j == 42 then IdResp.found dWeb else IdResp.errorPayload
    listDroplets := fun _ => [dWeb]
    createResp := fun _ _ => CreateResp.errMessage }

/-- C9 counterexample: desired state absent against existing droplet 42.  The
locator finds the instance, the invocation succeeds, yet the outcome carries
no instance at all (`exit_json(changed=True)` with no droplet field), refuting
the claim for the deletion path. -/
theorem c9_counterexample :
    (located envOne42 { baseParams with state := ("absent"), id := some 42 }
        0).1 = Except.ok (some dWeb) ∧
    (core envOne42 { baseParams with state := ("absent"), id := some 42 }
        none none 0).1 = CoreResult.exitJson true none none := by
  constructor <;> rfl

/-- Outcome analysis of the present branch: any successful exit produced by
`corePresent` carries exactly the droplet snapshot it was given. -/
theorem corePresent_exit_some (env : Env) (p : Params) (t0 : Int) (d : Droplet)
    (tr : Trace) :
    ∀ ch dopt m, (corePresent env p t0 d tr).1 = CoreResult.exitJson ch dopt m →
      dopt = some d := by
  intro ch dopt m h
  unfold corePresent at h
  rcases hip : is_powered_on env t0 d.id with ⟨r, trP⟩
  rw [hip] at h
  rcases r with e | b
  · simp at h
  · rcases b
    · rcases hE : ensure_powered_on env d p.wait p.wait_timeout t0 with ⟨er, rest⟩
      rw [hE] at h
      rcases er with _ | m2 | e2 <;> simp at h
      exact h.2.1.symm
    · simp at h
      exact h.2.1.symm

/-- C9 (amended): on every successful exit of a present/active-state
invocation — located, newly created, or the unchanged no-op path — the outcome
carries the instance representation.  (The deletion path, contrary to the
original claim, exits without an instance: see the counterexample.) -/
theorem c9_present_outcome_has_instance (env : Env) (p : Params)
    (doTok doKey : Option String) (t0 : Int)
    (hstate : p.state = ("present") ∨ p.state = ("active")) :
    ∀ ch dopt m, (core env p doTok doKey t0).1 = CoreResult.exitJson ch dopt m →
      dopt.isSome = true := by
  intro ch dopt m h
  rcases hT : resolveApiToken p.api_token doTok doKey with v | tok
  · rw [core, hT] at h
    simp at h
  have hst : (p.state == ("active") || p.state == ("present")) = true := by
    rcases hstate with hs | hs <;> simp [hs]
  rcases hL : located env p t0 with ⟨rL, trL⟩
  rcases rL with e | dOpt
  · rw [core, hT, hL] at h
    simp at h
  rcases dOpt with _ | d
  · rcases hC : env.createResp t0 (mkPayload p) with dNew | _
    · have hc : core env p doTok doKey t0 =
          corePresent env p t0 dNew (trL ++ [(t0, Call.create)]) := by
        rw [core, hT, hL]
        simp [hst, hC]
      rw [hc] at h
      have := corePresent_exit_some env p t0 dNew (trL ++ [(t0, Call.create)])
        ch dopt m h
      simp [this]
    · have hc : core env p doTok doKey t0 =
          (CoreResult.failJson attrErrorMsg, trL ++ [(t0, Call.create)]) := by
        rw [core, hT, hL]
        simp [hst, hC]
      rw [hc] at h
      simp at h
  · have hc : core env p doTok doKey t0 = corePresent env p t0 d trL := by
      rw [core, hT, hL]
      simp [hst]
    rw [hc] at h
    have := corePresent_exit_some env p t0 d trL ch dopt m h
    simp [this]

/-- C9 witness: an unchanged no-op run against active droplet 42 exits with
the instance present in the outcome. -/
theorem c9_witness :
    (core envOne42 { baseParams with id := some 42 } none none 0).1 =
      CoreResult.exitJson false (some dWeb) none ∧
    (some dWeb).isSome = true :=
  ⟨by rfl,
   c9_present_outcome_has_instance envOne42 { baseParams with id := some 42 }
     none none 0 (Or.inl (by rfl)) false (some dWeb) none (by rfl)⟩

/-- Environment hosting droplet 5 named web-1, listable. -/
def envList5 : Env :=
  { fetchById := fun _ _ => IdResp.errorPayload
    listDroplets := fun _ => [⟨5, ("web-1"), ("active")⟩]
    createResp := fun _ _ => CreateResp.ok (⟨9, ("web-1"), ("new")⟩) }

/-- C3 counterexample: no identifier, a name supplied, a droplet with exactly
that name listed — but `unique_name` false.  The locate step returns absent
and performs no list call at all, so the name-based lookup is not performed
regardless of other flags: it is gated on `unique_name`. -/
theorem c3_counterexample :
    ({ baseParams with name := some ("web-1") } : Params).id = none ∧
    (envList5.listDroplets 0).find? (fun d => d.name == ("web-1")) =
      some (⟨5, ("web-1"), ("active")⟩) ∧
    (located envList5 { baseParams with name := some ("web-1") } 0).1 =
      Except.ok none ∧
    (located envList5 { baseParams with name := some ("web-1") } 0).2 = [] := by
  refine ⟨rfl, rfl, rfl, rfl⟩

/-- C3 (amended): when no identifier is supplied (or the identifier lookup
produced a falsy value) and a name is supplied, and the `unique_name` flag is
set, the locate step lists all droplets (a list call is issued) and returns
the first droplet whose name is exactly equal to the requested name, absent
when none matches.  This holds for every combination of the remaining
parameters. -/
theorem c3_name_scan (env : Env) (p : Params) (c : Int) (nm : String)
    (hid : (get_droplet env c p.id none).1 = Except.ok none)
    (hu : p.unique_name = true)
    (hn : p.name = some nm) (hne : nm ≠ ("")) :
    (located env p c).1 =
      Except.ok ((env.listDroplets c).find? (fun d => d.name == nm)) ∧
    (c, Call.listAll) ∈ (located env p c).2 := by
  have h1 : get_droplet env c p.id none =
      (Except.ok none, (get_droplet env c p.id none).2) :=
    Prod.ext hid rfl
  have hb : (nm == ("")) = false := by simpa using hne
  have h2 : get_droplet env c none p.name =
      (Except.ok ((env.listDroplets c).find? (fun d => d.name == nm)),
       [(c, Call.listAll)]) := by
    simp [get_droplet, truthyNat, truthyStr, hn, hb]
  rw [located, h1]
  simp [hu, h2]

/-- C3 witness: id lookup not attempted (no id), unique_name set; the locator
lists droplets and returns the first exact name match. -/
theorem c3_witness :
    (located envList5
        { baseParams with name := some ("web-1"), unique_name := true } 0).1 =
      Except.ok (some (⟨5, ("web-1"), ("active")⟩)) ∧
    (0, Call.listAll) ∈ (located envList5
        { baseParams with name := some ("web-1"), unique_name := true } 0).2 := by
  have h := c3_name_scan envList5
    { baseParams with name := some ("web-1"), unique_name := true } 0 ("web-1")
    (by rfl) (by rfl) (by rfl) (by decide)
  simpa using h

/-- C4: with wait set and a droplet whose fetched status never is active, the
polling loop raises the TimeoutError naming the droplet id, the final clock is
within wait_timeout + 20 of the start, and every polling fetch happens at a
clock no later than the deadline start + wait_timeout (the sleep interval
shrinks so as never to overshoot the deadline); in particular the loop always
terminates. -/
theorem c4_timeout_bound (env : Env) (d : Droplet) (wt t0 : Int)
    (hid : d.id ≠ 0) (hwt : 0 ≤ wt)
    (h : ∀ t, ∃ j, env.fetchById t d.id = IdResp.found j ∧
      j.status ≠ ("active")) :
    (ensure_powered_on env d true wt t0).1 =
      EnsureResult.timeout (timeoutMsg d.id) ∧
    (ensure_powered_on env d true wt t0).2.1 ≤ t0 + wt + 20 ∧
    ∀ e ∈ (ensure_powered_on env d true wt t0).2.2, e.1 ≤ t0 + wt := by
  obtain ⟨j0, hj0, hj0a⟩ := h t0
  have hb0 : (j0.status == ("active")) = false := by simpa using hj0a
  have hentry : is_powered_on env t0 d.id =
      (Except.ok false, [(t0, Call.getById d.id)]) := by
    rw [is_powered_on_found env t0 d.id j0 hid hj0, hb0]
  have hPL := pollLoop_never_active env d.id (t0 + wt) hid h t0
  rcases hP : pollLoop env d.id (t0 + wt) t0 with ⟨r, cf, tr3⟩
  rw [hP] at hPL
  obtain ⟨hr, hcf⟩ := hPL
  simp only [] at hr hcf
  subst hr
  have hTr : ∀ e ∈ tr3, e.1 ≤ t0 + wt := by
    intro e he
    have hq := pollLoop_trace_spec env d.id (t0 + wt) t0
    rw [hP] at hq
    exact (hq e he).2.2.2
  have hE : ensure_powered_on env d true wt t0 =
      (EnsureResult.timeout (timeoutMsg d.id), cf,
       (if d.status == ("off")
         then [(t0, Call.getById d.id), (t0, Call.powerOn d.id)]
         else [(t0, Call.getById d.id)]) ++ tr3) := by
    rw [ensure_powered_on, hentry]
    by_cases hoff : d.status == ("off") <;> simp [hoff, hP]
  rw [hE]
  refine ⟨rfl, ?_, ?_⟩
  · show cf ≤ t0 + wt + 20
    omega
  intro e he
  rcases List.mem_append.mp he with hL | hR
  · have he1 : e.1 = t0 := by
      by_cases hoff : d.status == ("off")
      · rw [if_pos hoff] at hL
        simp only [List.mem_cons, List.not_mem_nil, or_false] at hL
        rcases hL with hL | hL <;> simp [hL]
      · rw [if_neg hoff] at hL
        simp only [List.mem_cons, List.not_mem_nil, or_false] at hL
        simp [hL]
    omega
  · exact hTr e hR

/-- Environment whose droplet 5 stays off forever. -/
def envStuckOff : Env :=
  { fetchById := fun _ _ => IdResp.found (⟨5, ("w"), ("off")⟩)
    listDroplets := fun _ => []
    createResp := fun _ _ => CreateResp.errMessage }

/-- C4 witness: wait 30 seconds against a droplet that never powers on; the
TimeoutError names droplet 5, the final clock stays within the slack bound and
no polling fetch overshoots the deadline. -/
theorem c4_witness :
    (ensure_powered_on envStuckOff (⟨5, ("w"), ("off")⟩) true 30 0).1 =
      EnsureResult.timeout (timeoutMsg 5) ∧
    (ensure_powered_on envStuckOff (⟨5, ("w"), ("off")⟩) true 30 0).2.1 ≤
      0 + 30 + 20 ∧
    ∀ e ∈ (ensure_powered_on envStuckOff (⟨5, ("w"), ("off")⟩) true 30 0).2.2,
      e.1 ≤ 0 + 30 :=
  c4_timeout_bound envStuckOff (⟨5, ("w"), ("off")⟩) 30 0 (by decide)
    (by norm_num) (fun _ => ⟨⟨5, ("w"), ("off")⟩, rfl, by decide⟩)

/-- C10: with wait set and an entry check showing the instance not yet active,
every call recorded by `ensure_powered_on` happens either at the start instant
(the entry fetch and the optional power-on) or at least one full sleep
interval later — the loop sleeps before its first re-fetch; and whenever
wait_timeout is at most zero the loop body never runs: the TimeoutError is
raised with exactly one status fetch in the whole trace (the entry check),
even if the environment would report the droplet active at later clocks. -/
theorem c10_sleep_first (env : Env) (d : Droplet) (wt t0 : Int) (j : Droplet)
    (hid : d.id ≠ 0)
    (hj : env.fetchById t0 d.id = IdResp.found j)
    (hja : j.status ≠ ("active")) :
    (∀ e ∈ (ensure_powered_on env d true wt t0).2.2,
      e.1 = t0 ∨ t0 + min 20 wt ≤ e.1) ∧
    (wt ≤ 0 →
      (ensure_powered_on env d true wt t0).1 =
        EnsureResult.timeout (timeoutMsg d.id) ∧
      ((ensure_powered_on env d true wt t0).2.2.filter
        (fun e => e.2.isStatusFetch)).length = 1) := by
  have hb0 : (j.status == ("active")) = false := by simpa using hja
  have hentry : is_powered_on env t0 d.id =
      (Except.ok false, [(t0, Call.getById d.id)]) := by
    rw [is_powered_on_found env t0 d.id j hid hj, hb0]
  rcases hP : pollLoop env d.id (t0 + wt) t0 with ⟨r, cf, tr3⟩
  have hTr : ∀ e ∈ tr3, t0 + min 20 (t0 + wt - t0) ≤ e.1 := by
    intro e he
    have hq := pollLoop_trace_spec env d.id (t0 + wt) t0
    rw [hP] at hq
    exact (hq e he).2.2.1
  have hE : (ensure_powered_on env d true wt t0).2.2 =
      (if d.status == ("off")
        then [(t0, Call.getById d.id), (t0, Call.powerOn d.id)]
        else [(t0, Call.getById d.id)]) ++ tr3 := by
    rw [ensure_powered_on, hentry]
    rcases r <;> by_cases hoff : d.status == ("off") <;> simp [hoff, hP]
  constructor
  · intro e he
    rw [hE] at he
    rcases List.mem_append.mp he with hL | hR
    · left
      by_cases hoff : d.status == ("off")
      · rw [if_pos hoff] at hL
        simp only [List.mem_cons, List.not_mem_nil, or_false] at hL
        rcases hL with hL | hL <;> simp [hL]
      · rw [if_neg hoff] at hL
        simp only [List.mem_cons, List.not_mem_nil, or_false] at hL
        simp [hL]
    · right
      have := hTr e hR
      omega
  · intro hwt
    have hP0 : pollLoop env d.id (t0 + wt) t0 = (PollResult.timedOut, t0, []) := by
      rw [pollLoop, dif_neg (by omega)]
    constructor
    · rw [ensure_powered_on, hentry]
      by_cases hoff : d.status == ("off") <;> simp [hoff, hP0]
    · rw [ensure_powered_on, hentry]
      by_cases hoff : d.status == ("off") <;>
        simp [hoff, hP0, Call.isStatusFetch]

/-- Environment whose droplet is off at clocks up to 0 and active afterwards. -/
def envLateActive : Env :=
  { fetchById := fun t _ => if t ≤ 0 then IdResp.found (⟨5, ("w"), ("off")⟩)
      else IdResp.found (⟨5, ("w"), ("active")⟩)
    listDroplets := fun _ => []
    createResp := fun _ _ => CreateResp.errMessage }

/-- C10 witness: wait_timeout 0 against a droplet that is off at the start
instant but active at every later clock; the loop body never runs, the
TimeoutError is raised and the only status fetch is the entry check. -/
theorem c10_witness :
    (∀ e ∈ (ensure_powered_on envLateActive (⟨5, ("w"), ("off")⟩) true 0 0).2.2,
      e.1 = 0 ∨ (0 : Int) + min 20 0 ≤ e.1) ∧
    ((0 : Int) ≤ 0 →
      (ensure_powered_on envLateActive (⟨5, ("w"), ("off")⟩) true 0 0).1 =
        EnsureResult.timeout (timeoutMsg 5) ∧
      ((ensure_powered_on envLateActive (⟨5, ("w"), ("off")⟩) true 0 0).2.2.filter
        (fun e => e.2.isStatusFetch)).length = 1) :=
  c10_sleep_first envLateActive (⟨5, ("w"), ("off")⟩) 0 0 (⟨5, ("w"), ("off")⟩)
    (by decide) (by norm_num [envLateActive]) (by decide)

/-- Environment for the C5 counterexample: creation yields droplet 7 with the
provider status new; the droplet is still new at clock 0 and active at every
later clock, so it boots without any power-on action. -/
def envNewBoots : Env :=
  { fetchById := fun t _ => if t ≤ 0 then IdResp.found (⟨7, ("web-1"), ("new")⟩)
      else IdResp.found (⟨7, ("web-1"), ("active")⟩)
    listDroplets := fun _ => []
    createResp := fun _ _ => CreateResp.ok (⟨7, ("web-1"), ("new")⟩) }

/-- Parameters of the C5 scenario: name only, unique_name, state present,
wait with timeout 60. -/
def pNew : Params :=
  { baseParams with
    name := some ("web-1")
    unique_name := true
    wait_timeout := 60 }

/-- C5 counterexample: a genuinely new instance (both lookups fail, create
issued) whose creation response has status new, not off.  Polling begins and
the run completes, yet no power-on call is ever issued — refuting the claim
that a power-on call is always issued for a newly created instance before
polling begins. -/
theorem c5_counterexample :
    (located envNewBoots pNew 0).1 = Except.ok none ∧
    (0, Call.create) ∈ (core envNewBoots pNew none none 0).2 ∧
    (20, Call.getById 7) ∈ (core envNewBoots pNew none none 0).2 ∧
    (core envNewBoots pNew none none 0).1 =
      CoreResult.exitJson true (some (⟨7, ("web-1"), ("new")⟩)) none ∧
    ∀ e ∈ (core envNewBoots pNew none none 0).2, e.2 ≠ Call.powerOn 7 := by
  have hRun : core envNewBoots pNew none none 0 =
      (CoreResult.exitJson true (some (⟨7, ("web-1"), ("new")⟩)) none,
       [(0, Call.listAll), (0, Call.create), (0, Call.getById 7),
        (0, Call.getById 7), (20, Call.getById 7)]) := by
    simp [core, located, get_droplet, corePresent, is_powered_on,
      ensure_powered_on, pollLoop, envNewBoots, pNew, baseParams, truthyNat,
      truthyStr, mkPayload, resolveApiToken]
  rw [hRun]
  refine ⟨rfl, by simp, by simp, rfl, by simp⟩

/-- C5 (amended): for a genuinely new instance (both lookups fail, state
present) whose creation response reports status off and which is not yet
active, with wait set, the trace is exactly the locate calls, then the create,
then the changed-check fetch, then the power-on entry fetch followed by the
power-on call, then the polling fetches: the create call precedes the
power-on call, and the power-on call precedes every polling fetch.  A
power-on call is issued for a newly created instance only when its reported
status is off. -/
theorem c5_create_power_poll_order (env : Env) (p : Params)
    (doTok doKey : Option String) (t0 : Int) (tok : String) (d j : Droplet)
    (htok : resolveApiToken p.api_token doTok doKey = Except.ok tok)
    (hstate : p.state = ("present"))
    (hloc : (located env p t0).1 = Except.ok none)
    (hcr : env.createResp t0 (mkPayload p) = CreateResp.ok d)
    (hdoff : d.status = ("off")) (hdid : d.id ≠ 0)
    (hfetch : env.fetchById t0 d.id = IdResp.found j)
    (hja : j.status ≠ ("active"))
    (hwait : p.wait = true) :
    (core env p doTok doKey t0).2 =
      (located env p t0).2 ++ [(t0, Call.create)] ++
      [(t0, Call.getById d.id)] ++
      [(t0, Call.getById d.id), (t0, Call.powerOn d.id)] ++
      (pollLoop env d.id (t0 + p.wait_timeout) t0).2.2 ∧
    (∀ e ∈ (located env p t0).2, e.2.isMutating = false) ∧
    ∀ e ∈ (pollLoop env d.id (t0 + p.wait_timeout) t0).2.2,
      e.2 = Call.getById d.id := by
  have hL : located env p t0 = (Except.ok none, (located env p t0).2) :=
    Prod.ext hloc rfl
  have hb0 : (j.status == ("active")) = false := by simpa using hja
  have hip : is_powered_on env t0 d.id =
      (Except.ok false, [(t0, Call.getById d.id)]) := by
    rw [is_powered_on_found env t0 d.id j hdid hfetch, hb0]
  rcases hP : pollLoop env d.id (t0 + p.wait_timeout) t0 with ⟨r, cf, tr3⟩
  have hTr : ∀ e ∈ tr3, e.2 = Call.getById d.id := by
    intro e he
    have hq := pollLoop_trace_spec env d.id (t0 + p.wait_timeout) t0
    rw [hP] at hq
    exact (hq e he).1
  have hoff : (d.status == ("off")) = true := by simp [hdoff]
  have hEtr : (ensure_powered_on env d p.wait p.wait_timeout t0).2.2 =
      [(t0, Call.getById d.id), (t0, Call.powerOn d.id)] ++ tr3 := by
    rw [ensure_powered_on, hip, hwait]
    rcases r <;> simp [hoff, hP]
  have hCore : core env p doTok doKey t0 =
      corePresent env p t0 d ((located env p t0).2 ++ [(t0, Call.create)]) := by
    rw [core, htok, hL]
    simp [hstate, hcr]
  refine ⟨?_, located_not_mutating env p t0, ?_⟩
  · rw [hCore, corePresent, hip]
    rcases hE : ensure_powered_on env d p.wait p.wait_timeout t0 with ⟨er, cf2, trE⟩
    rw [hE] at hEtr
    simp only [] at hEtr
    rcases er <;> simp [hEtr]
  · exact hTr

/-- Environment for the C5 witness: creation yields droplet 7 with status
off; the droplet is off at clock 0 and active at every later clock. -/
def envOffBoots : Env :=
  { fetchById := fun t _ => if t ≤ 0 then IdResp.found (⟨7, ("web-1"), ("off")⟩)
      else IdResp.found (⟨7, ("web-1"), ("active")⟩)
    listDroplets := fun _ => []
    createResp := fun _ _ => CreateResp.ok (⟨7, ("web-1"), ("off")⟩) }

/-- C5 witness: the creation of an off droplet is followed by the power-on
and only then by the polling fetches, in that order in the trace. -/
theorem c5_witness :
    (core envOffBoots pNew none none 0).2 =
      (located envOffBoots pNew 0).2 ++ [(0, Call.create)] ++
      [(0, Call.getById 7)] ++
      [(0, Call.getById 7), (0, Call.powerOn 7)] ++
      (pollLoop envOffBoots 7 (0 + pNew.wait_timeout) 0).2.2 ∧
    (∀ e ∈ (located envOffBoots pNew 0).2, e.2.isMutating = false) ∧
    ∀ e ∈ (pollLoop envOffBoots 7 (0 + pNew.wait_timeout) 0).2.2,
      e.2 = Call.getById 7 :=
  c5_create_power_poll_order envOffBoots pNew none none 0 ("tok")
    (⟨7, ("web-1"), ("off")⟩) (⟨7, ("web-1"), ("off")⟩)
    (by rfl) (by rfl) (by rfl) (by rfl) (by rfl) (by decide)
    (by norm_num [envOffBoots]) (by decide) (by rfl)

/-- C1: reconciling state present twice against a stable identifier — the
droplet off in the first run and reported active from then on — yields
changed=true with the droplet snapshot (same identifier) in the first
outcome, changed=false with the droplet (same identifier) in the second
outcome, and the second run issues no mutating call at all. -/
theorem c1_idempotent (env1 env2 : Env) (p : Params)
    (doTok doKey : Option String) (i : Nat) (nm nm2 : String) (t0 t1 : Int)
    (tok : String)
    (htok : resolveApiToken p.api_token doTok doKey = Except.ok tok)
    (hid : p.id = some i) (hi : i ≠ 0)
    (hstate : p.state = ("present"))
    (hwt : p.wait = true → 1 ≤ p.wait_timeout)
    (h1a : env1.fetchById t0 i = IdResp.found (⟨i, nm, ("off")⟩))
    (h1b : ∀ t, t0 < t → env1.fetchById t i = IdResp.found (⟨i, nm, ("active")⟩))
    (h2 : ∀ t, env2.fetchById t i = IdResp.found (⟨i, nm2, ("active")⟩)) :
    (core env1 p doTok doKey t0).1 =
      CoreResult.exitJson true (some (⟨i, nm, ("off")⟩)) none ∧
    (core env2 p doTok doKey t1).1 =
      CoreResult.exitJson false (some (⟨i, nm2, ("active")⟩)) none ∧
    ∀ e ∈ (core env2 p doTok doKey t1).2, e.2.isMutating = false := by
  have hgd2 : get_droplet env2 t1 p.id none =
      (Except.ok (some (⟨i, nm2, ("active")⟩)), [(t1, Call.getById i)]) := by
    simp [get_droplet, truthyNat, truthyStr, hid, hi, h2 t1]
  have hL2 : located env2 p t1 =
      (Except.ok (some (⟨i, nm2, ("active")⟩)), [(t1, Call.getById i)]) := by
    simp [located, hgd2]
  have hip2 : is_powered_on env2 t1 i =
      (Except.ok true, [(t1, Call.getById i)]) := by
    rw [is_powered_on_found env2 t1 i _ hi (h2 t1)]
    simp
  have hc2 : core env2 p doTok doKey t1 =
      (CoreResult.exitJson false (some (⟨i, nm2, ("active")⟩)) none,
       [(t1, Call.getById i), (t1, Call.getById i)]) := by
    rw [core, htok, hL2]
    simp [hstate, corePresent, hip2]
  have hgd1 : get_droplet env1 t0 p.id none =
      (Except.ok (some (⟨i, nm, ("off")⟩)), [(t0, Call.getById i)]) := by
    simp [get_droplet, truthyNat, truthyStr, hid, hi, h1a]
  have hL1 : located env1 p t0 =
      (Except.ok (some (⟨i, nm, ("off")⟩)), [(t0, Call.getById i)]) := by
    simp [located, hgd1]
  have hip1 : is_powered_on env1 t0 i =
      (Except.ok false, [(t0, Call.getById i)]) := by
    rw [is_powered_on_found env1 t0 i _ hi h1a]
    simp
  have hens : (ensure_powered_on env1 (⟨i, nm, ("off")⟩) p.wait p.wait_timeout
      t0).1 = EnsureResult.returned := by
    rcases hw : p.wait
    · rw [ensure_powered_on]
      simp [hip1]
    · have hwt1 := hwt hw
      have hpoll : pollLoop env1 i (t0 + p.wait_timeout) t0 =
          (PollResult.active, t0 + min 20 (t0 + p.wait_timeout - t0),
           [(t0 + min 20 (t0 + p.wait_timeout - t0), Call.getById i)]) := by
        rw [pollLoop, dif_pos (by omega)]
        have hfa : env1.fetchById (t0 + min 20 (t0 + p.wait_timeout - t0)) i =
            IdResp.found (⟨i, nm, ("active")⟩) := h1b _ (by omega)
        rw [is_powered_on_found env1 _ i _ hi hfa]
        simp
      rw [ensure_powered_on]
      simp [hip1, hpoll]
  rcases hE : ensure_powered_on env1 (⟨i, nm, ("off")⟩) p.wait p.wait_timeout t0
    with ⟨er, cf1, trE⟩
  rw [hE] at hens
  simp only [] at hens
  subst hens
  have hc1 : (core env1 p doTok doKey t0).1 =
      CoreResult.exitJson true (some (⟨i, nm, ("off")⟩)) none := by
    rw [core, htok, hL1]
    simp [hstate, corePresent, hip1, hE]
  refine ⟨hc1, ?_, ?_⟩
  · rw [hc2]
  · rw [hc2]
    simp [Call.isMutating]

/-- Environment for the first C1 witness run: droplet 5 off at clocks up to
0, active later. -/
def envRun1 : Env :=
  { fetchById := fun t _ => if t ≤ 0 then IdResp.found (⟨5, ("web"), ("off")⟩)
      else IdResp.found (⟨5, ("web"), ("active")⟩)
    listDroplets := fun _ => []
    createResp := fun _ _ => CreateResp.errMessage }

/-- Environment for the second C1 witness run: droplet 5 always active. -/
def envRun2 : Env :=
  { fetchById := fun _ _ => IdResp.found (⟨5, ("web"), ("active")⟩)
    listDroplets := fun _ => []
    createResp := fun _ _ => CreateResp.errMessage }

/-- C1 witness: two consecutive runs against droplet id 5, the first powering
it on (changed=true), the second a no-op (changed=false, same id, no mutating
calls). -/
theorem c1_witness :
    (core envRun1 { baseParams with id := some 5 } none none 0).1 =
      CoreResult.exitJson true (some (⟨5, ("web"), ("off")⟩)) none ∧
    (core envRun2 { baseParams with id := some 5 } none none 100).1 =
      CoreResult.exitJson false (some (⟨5, ("web"), ("active")⟩)) none ∧
    ∀ e ∈ (core envRun2 { baseParams with id := some 5 } none none 100).2,
      e.2.isMutating = false :=
  c1_idempotent envRun1 envRun2 { baseParams with id := some 5 } none none 5
    ("web") ("web") 0 100 ("tok") (by rfl) (by rfl) (by decide) (by rfl)
    (fun hw => by norm_num [baseParams])
    (by norm_num [envRun1])
    (fun t ht => by rw [envRun1]; simp only []; rw [if_neg (by omega)])
    (fun t => rfl)

end DODroplet
